import Mathlib

/-!
Shallow embedding of `src/gpt_rascunho_ic.py`, an automated optical-spectroscopy
sweep (Bentham TMc300 monochromator + Signal Recovery SR7265 lock-in amplifier).

The program is single-threaded and strictly sequential, so we model a sweep as a
pure interpreter over an environment `Env` of external responses (hardware
initialisation success, achieved wavelengths, overload status bits, simulated
noise draws, and possibly-failing `XY.` reads).  Every externally observable
action of the program (device commands, `time.sleep` calls, status queries,
reads, shutdown calls) is recorded as an `Event` in a trace, in program order.
Analog quantities (wavelengths in nm, voltages, durations in seconds) are reals.
-/

open scoped Classical

/-- External-world responses consumed by the program.  `simulate` is the global
`SIMULATE` flag; the remaining fields are the responses of the hardware /
random-number generator, which the source consumes but does not compute. -/
structure Env where
  /-- the global `SIMULATE` flag (line 15) -/
  simulate : Bool
  /-- real hw: `BI_initialise() == 0 and BI_build_system(...) == 0` (line 31) -/
  initOk : Bool
  /-- real hw: `rm.open_resource(endereco)` succeeds (line 79) -/
  conectarOk : Bool
  /-- real hw: wavelength reported by `BI_select_wavelength` for a request (line 57) -/
  achieved : ℝ → ℝ
  /-- real hw: bit 4 of the `ST` status response, `bool(status & 0x10)` (line 115) -/
  overloadBit : ℝ → Bool
  /-- sim: the `np.random.normal(0, 5e-5)` draw used by the read at wavelength wl (line 100) -/
  noise : ℝ → ℝ
  /-- real hw: result of the `XY.` query (line 105); `none` models a raised read error -/
  realRead : ℝ → Option (ℝ × ℝ)

/-- Observable actions of the program, recorded in program order. -/
inductive Event where
  /-- `mono.inicializar()` was called (line 137) -/
  | monoInit
  /-- `lockin.conectar()` was called (line 138) -/
  | lockinConectar
  /-- `lockin.configurar_experimento(tau)` was called (line 139) -/
  | lockinConfigurar (tau : ℝ)
  /-- `_enviar_comando(wl)`: a `BI_select_wavelength` device command (lines 45, 49) -/
  | enviarComando (wl : ℝ)
  /-- `time.sleep(dur)` (lines 46, 150, 157) -/
  | sleep (dur : ℝ)
  /-- `lockin.verificar_status(wl)`: the saturation query (line 153) -/
  | verificarStatus (wl : ℝ)
  /-- `lockin.auto_sensitivity()` (line 156) -/
  | autoSensitivity
  /-- `lockin.ler_XY(wl)`: the sample read was issued (line 160) -/
  | lerXY (wl : ℝ)
  /-- `mono.fechar()` was called (line 168) -/
  | monoFechar
  /-- `lockin.fechar()` was called (line 169) -/
  | lockinFechar

/-- Exceptions that `executar_varredura` can propagate. -/
inductive SweepError where
  /-- `RuntimeError` from `BenthamMonochromator.inicializar` (line 32) -/
  | hardwareInit
  /-- a connect failure raised inside `SR7265LockIn.conectar` (line 79) -/
  | detectorConnect
  /-- a read failure raised inside `ler_XY` mid-loop (line 105) -/
  | acquisition
deriving DecidableEq

/-- A row of `self.dados`: `[wl_real, x, y, r, fase]` (line 165). -/
structure SampleRecord where
  wl : ℝ
  x : ℝ
  y : ℝ
  r : ℝ
  fase : ℝ

/-- Mutable state of an `Experimento` instance that the sweep touches:
`mono.current_lambda` (line 22) and `self.dados` (line 134). -/
structure SweepState where
  currentLambda : Option ℝ
  dados : List SampleRecord

/-- Python `range(a, b, s)` for a positive step `s` (the only case the program
exercises: `range(start, end + 1, step)` on line 145). -/
def pyRange (a b s : ℤ) : List ℤ :=
  if 0 < s then (List.range ((b - a + s - 1) / s).toNat).map (fun i => a + s * i) else []

/-- `math.sqrt(x**2 + y**2)` (line 161). -/
noncomputable def magnitude (x y : ℝ) : ℝ := Real.sqrt (x ^ 2 + y ^ 2)

/-- `math.atan2(y, x)`: the four-quadrant arctangent, i.e. the argument of the
complex number x + y·i, valued in (-π, π]. -/
noncomputable def atan2 (y x : ℝ) : ℝ := Complex.arg { re := x, im := y }

/-- `math.degrees(math.atan2(y, x))` (line 162). -/
noncomputable def faseDeg (x y : ℝ) : ℝ := atan2 y x * (180 / Real.pi)

/-- `SR7265LockIn.ler_XY` (lines 95-106): in simulation a two-peak synthetic
spectrum plus a noise draw, never failing; on real hardware the `XY.` query,
which may raise (modelled by `none`). -/
noncomputable def lerXY (env : Env) (wl : ℝ) : Option (ℝ × ℝ) :=
  if env.simulate then
    let pico1 := 0.001 * Real.exp (-((wl - 500) ^ 2) / 200)
    let pico2 := 0.0025 * Real.exp (-((wl - 650) ^ 2) / 100)
    let ruido := env.noise wl
    some (pico1 + pico2 + ruido + 0.0001, ruido * 0.5)
  else env.realRead wl

/-- `SR7265LockIn.verificar_status(wl)['overload']` (lines 108-115): in
simulation overload is forced in the open interval (640, 660); on real
hardware it is status bit 4. -/
noncomputable def overloadAt (env : Env) (wl : ℝ) : Bool :=
  if env.simulate then decide ((640 : ℝ) < wl ∧ wl < 660) else env.overloadBit wl

/-- The backlash-compensation commands of `mover_para` (lines 43-46): on a
decreasing move (relative to a previously achieved position) an overshoot
command to `max(0, lambda_nm - 2)` followed by `time.sleep(0.1)`. -/
noncomputable def backlashEvents (cur : Option ℝ) (target : ℝ) : List Event :=
  match cur with
  | some last =>
      if target < last then
        [Event.enviarComando (max 0 (target - 2)), Event.sleep 0.1]
      else []
  | none => []

/-- `BenthamMonochromator.mover_para` (lines 34-51).  Returns the new
`current_lambda`, the achieved wavelength, and the device commands issued.
In simulation it records and returns the request unchanged, issuing nothing. -/
noncomputable def moverPara (env : Env) (cur : Option ℝ) (target : ℝ) :
    (Option ℝ × ℝ) × List Event :=
  if env.simulate then ((some target, target), [])
  else
    ((some (env.achieved target), env.achieved target),
      backlashEvents cur target ++ [Event.enviarComando target])

/-- The achieved wavelength `wl_real` of a step (line 147), as the loop sees it. -/
noncomputable def wlRealOf (env : Env) (st : SweepState) (wl : ℤ) : ℝ :=
  (moverPara env st.currentLambda (wl : ℝ)).1.2

/-- The achieved wavelength of a step, written without the actuator state (the
real-hardware achieved value depends only on the request). -/
noncomputable def wlRealPure (env : Env) (wl : ℤ) : ℝ :=
  if env.simulate then (wl : ℝ) else env.achieved (wl : ℝ)

/-- The settling sleep duration of the loop body:
`tempo_espera if not SIMULATE else 0.05` with `tempo_espera = tau * 5`
(lines 141, 150, 157). -/
noncomputable def settleDur (env : Env) (tau : ℝ) : ℝ :=
  if env.simulate then 0.05 else tau * 5

/-- Whether the read of the step at requested wavelength `wl` raises: only the
real-hardware `XY.` query can fail; the simulated read always returns. -/
noncomputable def stepFails (env : Env) (wl : ℤ) : Bool :=
  (lerXY env (wlRealPure env wl)).isNone

/-- The record appended for a successful step at requested wavelength `wl`
(lines 160-165).  The `none` fallback is never reached when the step's read
succeeds. -/
noncomputable def recordAt (env : Env) (wl : ℤ) : SampleRecord :=
  match lerXY env (wlRealPure env wl) with
  | some (x, y) => ⟨wlRealPure env wl, x, y, magnitude x y, faseDeg x y⟩
  | none => ⟨wlRealPure env wl, 0, 0, 0, 0⟩

/-- The events of one iteration of the acquisition loop (lines 145-165), in
program order: the move commands, the settling sleep, the saturation query,
the overload branch (`auto_sensitivity` plus a second settling sleep), and the
sample read. -/
noncomputable def stepEvents (env : Env) (tau : ℝ) (st : SweepState) (wl : ℤ) : List Event :=
  (moverPara env st.currentLambda (wl : ℝ)).2 ++
    [Event.sleep (settleDur env tau), Event.verificarStatus (wlRealOf env st wl)] ++
    (if overloadAt env (wlRealOf env st wl) = true then
      [Event.autoSensitivity, Event.sleep (settleDur env tau)]
    else []) ++
    [Event.lerXY (wlRealOf env st wl)]

set_option linter.unusedVariables false in
/-- The state transition of one iteration of the acquisition loop: the actuator
state is updated by the move; on a successful read one record is appended,
on a failed read the flag `true` (an `AcquisitionError`) is returned and
`dados` is left unchanged.  The parameter `tau` only shapes the step's sleep
events, not its state transition. -/
noncomputable def stepOnce (env : Env) (tau : ℝ) (st : SweepState) (wl : ℤ) :
    SweepState × Bool :=
  let cur' := (moverPara env st.currentLambda (wl : ℝ)).1.1
  let wlReal := wlRealOf env st wl
  match lerXY env wlReal with
  | none => (⟨cur', st.dados⟩, true)
  | some (x, y) => (⟨cur', st.dados ++ [⟨wlReal, x, y, magnitude x y, faseDeg x y⟩]⟩, false)

/-- The `for wl in range(...)` loop of `executar_varredura` (lines 145-165):
runs steps in order, stopping at the first read failure.  Returns the final
state, whether an `AcquisitionError` was raised, and the emitted events. -/
noncomputable def runLoop (env : Env) (tau : ℝ) : SweepState → List ℤ → SweepState × Bool × List Event
  | st, [] => (st, false, [])
  | st, wl :: rest =>
    let res := stepOnce env tau st wl
    if res.2 then (res.1, true, stepEvents env tau st wl)
    else
      let r := runLoop env tau res.1 rest
      (r.1, r.2.1, stepEvents env tau st wl ++ r.2.2)

/-- `Experimento.executar_varredura` (lines 136-170).  Initialisation, connect
and configure run before the `try`; a failure there propagates without running
the `finally`.  The loop body runs inside `try ... finally`, so both `fechar`
calls are emitted after the loop whether or not a read failed. -/
noncomputable def executarVarredura (env : Env) (st0 : SweepState)
    (start endW step : ℤ) (tau : ℝ) : SweepState × Option SweepError × List Event :=
  if !env.simulate && !env.initOk then
    (st0, some SweepError.hardwareInit, [Event.monoInit])
  else if !env.simulate && !env.conectarOk then
    (st0, some SweepError.detectorConnect, [Event.monoInit, Event.lockinConectar])
  else
    let lr := runLoop env tau st0 (pyRange start (endW + 1) step)
    (lr.1, (if lr.2.1 then some SweepError.acquisition else none),
      [Event.monoInit, Event.lockinConectar, Event.lockinConfigurar tau] ++
        lr.2.2 ++ [Event.monoFechar, Event.lockinFechar])

/-- Python-level exceptions of the shutdown methods. -/
inductive PyError where
  /-- attribute access on `None` (`self.lib` / `self.inst` never assigned) -/
  | attributeError
deriving DecidableEq

/-- `BenthamMonochromator.fechar` (lines 60-63): a no-op in simulation; on real
hardware it calls `self.lib.BI_park()` and `self.lib.BI_close_system()`, which
raises an `AttributeError` when `self.lib` is still `None` (i.e. `inicializar`
never loaded the library). -/
def benthamFechar (simulate : Bool) (lib : Option Unit) : Except PyError Unit :=
  if simulate then Except.ok ()
  else
    match lib with
    | none => Except.error PyError.attributeError
    | some _ => Except.ok ()

/-- `SR7265LockIn.fechar` (lines 123-125): a no-op in simulation; on real
hardware it calls `self.inst.close()`, which raises an `AttributeError` when
`self.inst` is still `None` (i.e. `conectar` never opened the session). -/
def sr7265Fechar (simulate : Bool) (inst : Option Unit) : Except PyError Unit :=
  if simulate then Except.ok ()
  else
    match inst with
    | none => Except.error PyError.attributeError
    | some _ => Except.ok ()

/-- The row `salvar_e_plotar` hands to the sink for one record: the DataFrame
column order `["Lambda(nm)", "X(V)", "Y(V)", "R(V)", "Fase(deg)"]` (line 173). -/
def toRow (rec : SampleRecord) : List ℝ := [rec.wl, rec.x, rec.y, rec.r, rec.fase]

/-- `Experimento.salvar_e_plotar` (lines 172-174) as seen by the result sink:
all of `self.dados`, row by row, in order. -/
def sinkRows (dados : List SampleRecord) : List (List ℝ) := dados.map toRow

/-- Event classifiers (constructor tests), used to count occurrences. -/
def isMonoInit : Event → Bool
  | Event.monoInit => true
  | _ => false

def isMonoFechar : Event → Bool
  | Event.monoFechar => true
  | _ => false

def isLockinFechar : Event → Bool
  | Event.lockinFechar => true
  | _ => false

def isAutoSens : Event → Bool
  | Event.autoSensitivity => true
  | _ => false

def isVerifStatus : Event → Bool
  | Event.verificarStatus _ => true
  | _ => false

def isLer : Event → Bool
  | Event.lerXY _ => true
  | _ => false

def isEnviarCmd : Event → Bool
  | Event.enviarComando _ => true
  | _ => false

def isSleepEv : Event → Bool
  | Event.sleep _ => true
  | _ => false

/-- A concrete simulated environment (the source's default `SIMULATE = True`,
with the noise draws fixed to 0). -/
noncomputable def envSim : Env :=
  { simulate := true, initOk := true, conectarOk := true, achieved := fun w => w,
    overloadBit := fun _ => false, noise := fun _ => 0, realRead := fun _ => some (1, 0) }

/-- A concrete real-hardware environment in which everything succeeds and the
device achieves exactly the requested wavelengths. -/
noncomputable def envReal : Env :=
  { simulate := false, initOk := true, conectarOk := true, achieved := fun w => w,
    overloadBit := fun _ => false, noise := fun _ => 0, realRead := fun _ => some (1, 0) }

/-- A real-hardware environment in which the detector connect fails (after the
actuator initialised successfully). -/
noncomputable def envConnFail : Env := { envReal with conectarOk := false }

/-- A real-hardware environment in which the `XY.` read raises from 410 nm on. -/
noncomputable def envReadFail : Env :=
  { envReal with realRead := fun wl => if wl < 410 then some (1, 1) else none }

/-! ### Basic lemmas about the embedding -/

lemma wlRealOf_eq (env : Env) (st : SweepState) (wl : ℤ) :
    wlRealOf env st wl = wlRealPure env wl := by
  unfold wlRealOf wlRealPure moverPara
  by_cases h : env.simulate <;> simp [h]

lemma recordAt_r (env : Env) (wl : ℤ) :
    (recordAt env wl).r = magnitude (recordAt env wl).x (recordAt env wl).y := by
  unfold recordAt
  cases h : lerXY env (wlRealPure env wl) with
  | none =>
      simp only [magnitude]
      norm_num
  | some p => cases p with
    | mk x y => simp

lemma recordAt_fase (env : Env) (wl : ℤ) :
    (recordAt env wl).fase = faseDeg (recordAt env wl).x (recordAt env wl).y := by
  unfold recordAt
  cases h : lerXY env (wlRealPure env wl) with
  | none =>
      simp only [faseDeg, atan2]
      have h0 : ({ re := 0, im := 0 } : ℂ) = 0 := by
        apply Complex.ext <;> simp
      simp [h0, Complex.arg_zero]
  | some p => cases p with
    | mk x y => simp

lemma recordAt_wl (env : Env) (wl : ℤ) : (recordAt env wl).wl = wlRealPure env wl := by
  unfold recordAt
  cases h : lerXY env (wlRealPure env wl) with
  | none => simp
  | some p => cases p with
    | mk x y => simp

lemma stepOnce_eq (env : Env) (tau : ℝ) (st : SweepState) (wl : ℤ) :
    stepOnce env tau st wl =
      (⟨some (wlRealPure env wl),
        if stepFails env wl = true then st.dados else st.dados ++ [recordAt env wl]⟩,
       stepFails env wl) := by
  have hcur : (moverPara env st.currentLambda (wl : ℝ)).1.1 = some (wlRealPure env wl) := by
    unfold moverPara wlRealPure
    by_cases h : env.simulate <;> simp [h]
  unfold stepOnce stepFails recordAt
  rw [wlRealOf_eq, hcur]
  cases h : lerXY env (wlRealPure env wl) with
  | none => simp [h]
  | some p => cases p with
    | mk x y => simp [h]

lemma backlashEvents_mem (cur : Option ℝ) (target : ℝ) :
    ∀ e ∈ backlashEvents cur target, isEnviarCmd e = true ∨ isSleepEv e = true := by
  unfold backlashEvents
  cases cur with
  | none => simp
  | some last =>
      by_cases h : target < last <;> simp [h, isEnviarCmd, isSleepEv]

lemma moverPara_events_mem (env : Env) (cur : Option ℝ) (target : ℝ) :
    ∀ e ∈ (moverPara env cur target).2, isEnviarCmd e = true ∨ isSleepEv e = true := by
  unfold moverPara
  by_cases h : env.simulate <;> simp [h]
  intro e he
  rcases he with he | he
  · exact backlashEvents_mem cur target e he
  · subst he; simp [isEnviarCmd]

lemma moverPara_countP_zero (env : Env) (cur : Option ℝ) (target : ℝ) (p : Event → Bool)
    (hp : ∀ e, p e = true → isEnviarCmd e = false ∧ isSleepEv e = false) :
    ((moverPara env cur target).2).countP p = 0 := by
  rw [List.countP_eq_zero]
  intro e he hpe
  rcases moverPara_events_mem env cur target e he with h | h
  · exact absurd h (by simp [(hp e hpe).1])
  · exact absurd h (by simp [(hp e hpe).2])

lemma stepEvents_decomp (env : Env) (tau : ℝ) (st : SweepState) (wl : ℤ) :
    stepEvents env tau st wl =
      ((moverPara env st.currentLambda (wl : ℝ)).2 ++ [Event.sleep (settleDur env tau)]) ++
        [Event.verificarStatus (wlRealOf env st wl)] ++
        (if overloadAt env (wlRealOf env st wl) = true then
          [Event.autoSensitivity, Event.sleep (settleDur env tau)]
        else []) ++
        [Event.lerXY (wlRealOf env st wl)] := by
  unfold stepEvents
  simp

lemma stepEvents_countP_verif (env : Env) (tau : ℝ) (st : SweepState) (wl : ℤ) :
    (stepEvents env tau st wl).countP isVerifStatus = 1 := by
  rw [stepEvents_decomp]
  simp only [List.countP_append]
  rw [moverPara_countP_zero env _ _ isVerifStatus
    (by intro e he; cases e <;> simp_all [isVerifStatus, isEnviarCmd, isSleepEv])]
  by_cases h : overloadAt env (wlRealOf env st wl) = true <;>
    simp [h, List.countP_cons, isVerifStatus]

lemma stepEvents_countP_ler (env : Env) (tau : ℝ) (st : SweepState) (wl : ℤ) :
    (stepEvents env tau st wl).countP isLer = 1 := by
  rw [stepEvents_decomp]
  simp only [List.countP_append]
  rw [moverPara_countP_zero env _ _ isLer
    (by intro e he; cases e <;> simp_all [isLer, isEnviarCmd, isSleepEv])]
  by_cases h : overloadAt env (wlRealOf env st wl) = true <;>
    simp [h, List.countP_cons, isLer]

lemma stepEvents_countP_autoSens (env : Env) (tau : ℝ) (st : SweepState) (wl : ℤ) :
    (stepEvents env tau st wl).countP isAutoSens =
      (if overloadAt env (wlRealOf env st wl) = true then 1 else 0) := by
  rw [stepEvents_decomp]
  simp only [List.countP_append]
  rw [moverPara_countP_zero env _ _ isAutoSens
    (by intro e he; cases e <;> simp_all [isAutoSens, isEnviarCmd, isSleepEv])]
  by_cases h : overloadAt env (wlRealOf env st wl) = true <;>
    simp [h, List.countP_cons, isAutoSens]

lemma stepEvents_countP_monoFechar (env : Env) (tau : ℝ) (st : SweepState) (wl : ℤ) :
    (stepEvents env tau st wl).countP isMonoFechar = 0 := by
  rw [stepEvents_decomp]
  simp only [List.countP_append]
  rw [moverPara_countP_zero env _ _ isMonoFechar
    (by intro e he; cases e <;> simp_all [isMonoFechar, isEnviarCmd, isSleepEv])]
  by_cases h : overloadAt env (wlRealOf env st wl) = true <;>
    simp [h, List.countP_cons, isMonoFechar]

lemma stepEvents_countP_lockinFechar (env : Env) (tau : ℝ) (st : SweepState) (wl : ℤ) :
    (stepEvents env tau st wl).countP isLockinFechar = 0 := by
  rw [stepEvents_decomp]
  simp only [List.countP_append]
  rw [moverPara_countP_zero env _ _ isLockinFechar
    (by intro e he; cases e <;> simp_all [isLockinFechar, isEnviarCmd, isSleepEv])]
  by_cases h : overloadAt env (wlRealOf env st wl) = true <;>
    simp [h, List.countP_cons, isLockinFechar]

lemma runLoop_cons_fail (env : Env) (tau : ℝ) (st : SweepState) (wl : ℤ) (rest : List ℤ)
    (h : stepFails env wl = true) :
    runLoop env tau st (wl :: rest) =
      (⟨some (wlRealPure env wl), st.dados⟩, true, stepEvents env tau st wl) := by
  unfold runLoop
  rw [stepOnce_eq]
  simp [h]

lemma runLoop_cons_ok (env : Env) (tau : ℝ) (st : SweepState) (wl : ℤ) (rest : List ℤ)
    (h : stepFails env wl = false) :
    runLoop env tau st (wl :: rest) =
      ((runLoop env tau ⟨some (wlRealPure env wl), st.dados ++ [recordAt env wl]⟩ rest).1,
       (runLoop env tau ⟨some (wlRealPure env wl), st.dados ++ [recordAt env wl]⟩ rest).2.1,
       stepEvents env tau st wl ++
         (runLoop env tau ⟨some (wlRealPure env wl), st.dados ++ [recordAt env wl]⟩ rest).2.2) := by
  conv_lhs => rw [runLoop]
  rw [stepOnce_eq]
  simp [h]

lemma runLoop_ok (env : Env) (tau : ℝ) :
    ∀ (l : List ℤ) (st : SweepState), (∀ v ∈ l, stepFails env v = false) →
      (runLoop env tau st l).2.1 = false ∧
      (runLoop env tau st l).1.dados = st.dados ++ l.map (recordAt env) := by
  intro l
  induction l with
  | nil => intro st _; simp [runLoop]
  | cons wl rest ih =>
      intro st h
      have hw : stepFails env wl = false := h wl (by simp)
      rw [runLoop_cons_ok env tau st wl rest hw]
      have hr := ih ⟨some (wlRealPure env wl), st.dados ++ [recordAt env wl]⟩
        (fun v hv => h v (by simp [hv]))
      refine ⟨hr.1, ?_⟩
      rw [hr.2]
      simp

lemma runLoop_stops (env : Env) (tau : ℝ) :
    ∀ (l1 : List ℤ) (st : SweepState) (w : ℤ) (l2 : List ℤ),
      (∀ v ∈ l1, stepFails env v = false) → stepFails env w = true →
      (runLoop env tau st (l1 ++ w :: l2)).2.1 = true ∧
      (runLoop env tau st (l1 ++ w :: l2)).1.dados = st.dados ++ l1.map (recordAt env) ∧
      ((runLoop env tau st (l1 ++ w :: l2)).2.2).countP isLer = l1.length + 1 := by
  intro l1
  induction l1 with
  | nil =>
      intro st w l2 _ hw
      rw [List.nil_append, runLoop_cons_fail env tau st w l2 hw]
      exact ⟨rfl, by simp, by simp [stepEvents_countP_ler]⟩
  | cons v rest ih =>
      intro st w l2 h1 hw
      have hv : stepFails env v = false := h1 v (by simp)
      rw [List.cons_append, runLoop_cons_ok env tau st v (rest ++ w :: l2) hv]
      have hr := ih ⟨some (wlRealPure env v), st.dados ++ [recordAt env v]⟩ w l2
        (fun u hu => h1 u (by simp [hu])) hw
      refine ⟨hr.1, ?_, ?_⟩
      · rw [hr.2.1]; simp
      · rw [List.countP_append, stepEvents_countP_ler, hr.2.2]
        simp [List.length_cons]
        omega

lemma runLoop_countP_fechar (env : Env) (tau : ℝ) :
    ∀ (l : List ℤ) (st : SweepState),
      ((runLoop env tau st l).2.2).countP isMonoFechar = 0 ∧
      ((runLoop env tau st l).2.2).countP isLockinFechar = 0 := by
  intro l
  induction l with
  | nil => intro st; simp [runLoop]
  | cons wl rest ih =>
      intro st
      by_cases h : stepFails env wl = true
      · rw [runLoop_cons_fail env tau st wl rest h]
        exact ⟨stepEvents_countP_monoFechar env tau st wl,
          stepEvents_countP_lockinFechar env tau st wl⟩
      · rw [runLoop_cons_ok env tau st wl rest (by simpa using h)]
        have hr := ih ⟨some (wlRealPure env wl), st.dados ++ [recordAt env wl]⟩
        constructor
        · rw [List.countP_append, stepEvents_countP_monoFechar, hr.1]
        · rw [List.countP_append, stepEvents_countP_lockinFechar, hr.2]

lemma runLoop_dados_append (env : Env) (tau : ℝ) :
    ∀ (l : List ℤ) (st : SweepState), ∃ n, (runLoop env tau st l).1.dados = st.dados ++ n := by
  intro l
  induction l with
  | nil => intro st; exact ⟨[], by simp [runLoop]⟩
  | cons wl rest ih =>
      intro st
      by_cases h : stepFails env wl = true
      · rw [runLoop_cons_fail env tau st wl rest h]
        exact ⟨[], by simp⟩
      · rw [runLoop_cons_ok env tau st wl rest (by simpa using h)]
        rcases ih ⟨some (wlRealPure env wl), st.dados ++ [recordAt env wl]⟩ with ⟨n, hn⟩
        exact ⟨recordAt env wl :: n, by rw [hn]; simp⟩

lemma runLoop_mem_derived (env : Env) (tau : ℝ) :
    ∀ (l : List ℤ) (st : SweepState) (rec : SampleRecord),
      rec ∈ (runLoop env tau st l).1.dados →
      rec ∈ st.dados ∨ (rec.r = magnitude rec.x rec.y ∧ rec.fase = faseDeg rec.x rec.y) := by
  intro l
  induction l with
  | nil => intro st rec h; left; simpa [runLoop] using h
  | cons wl rest ih =>
      intro st rec h
      by_cases hf : stepFails env wl = true
      · rw [runLoop_cons_fail env tau st wl rest hf] at h
        exact Or.inl h
      · rw [runLoop_cons_ok env tau st wl rest (by simpa using hf)] at h
        rcases ih ⟨some (wlRealPure env wl), st.dados ++ [recordAt env wl]⟩ rec h with hm | hd
        · rcases List.mem_append.1 hm with hm | hm
          · exact Or.inl hm
          · right
            have : rec = recordAt env wl := by simpa using hm
            subst this
            exact ⟨recordAt_r env wl, recordAt_fase env wl⟩
        · exact Or.inr hd

lemma exec_unfold (env : Env) (st0 : SweepState) (s e p : ℤ) (tau : ℝ)
    (henv : env.simulate = true ∨ (env.initOk = true ∧ env.conectarOk = true)) :
    executarVarredura env st0 s e p tau =
      ((runLoop env tau st0 (pyRange s (e + 1) p)).1,
       (if (runLoop env tau st0 (pyRange s (e + 1) p)).2.1 then
          some SweepError.acquisition else none),
       [Event.monoInit, Event.lockinConectar, Event.lockinConfigurar tau] ++
         (runLoop env tau st0 (pyRange s (e + 1) p)).2.2 ++
         [Event.monoFechar, Event.lockinFechar]) := by
  unfold executarVarredura
  rcases henv with h | hh
  · simp [h]
  · simp [hh.1, hh.2]

/-! ### Claim theorems -/

/-- Claim C10 (confirmed): in the simulated configuration, for every target
wavelength (including a decreasing move relative to the last achieved
position), the actuator's move operation issues no overshoot command and no
mechanical-settle pause (it issues no device command at all), and the achieved
wavelength it returns and records as its state equals the requested target. -/
theorem c10_sim_move_exact (env : Env) (h : env.simulate = true)
    (cur : Option ℝ) (target : ℝ) :
    moverPara env cur target = ((some target, target), []) := by
  simp [moverPara, h]

/-- Witness for C10: a concrete simulated decreasing move from 500 nm to
480 nm returns and records exactly 480 and issues nothing. -/
theorem c10_sim_move_exact_witness :
    moverPara envSim (some 500) 480 = ((some 480, 480), []) :=
  c10_sim_move_exact envSim rfl (some 500) 480

/-- Claim C3 counterexample: in the simulated configuration (the source's
default, `SIMULATE = True`), a non-first strictly decreasing move — last
achieved 500, target 480 — issues no overshoot command and no device command
at all, refuting the claim for "every call to the actuator's move
operation". -/
theorem c3_counterexample :
    (480 : ℝ) < 500 ∧ (moverPara envSim (some 500) 480).2 = [] := by
  constructor
  · norm_num
  · simp [moverPara, envSim]

/-- Claim C3 (amended): in the real-hardware configuration, for every call to
the actuator's move operation: if it is not the first move and the target is
strictly below the last achieved wavelength, an overshoot command to
max(0, target − 2) and a 0.1 s mechanical-settle pause are issued before the
command to the target; if it is the first move or the target is greater than
or equal to the last achieved wavelength, only the command to the target is
issued.  (In the simulated configuration no overshoot ever occurs.) -/
theorem c3_backlash_real (env : Env) (h : env.simulate = false) (target : ℝ) :
    ((moverPara env none target).2 = [Event.enviarComando target]) ∧
    (∀ last : ℝ, target < last →
      (moverPara env (some last) target).2 =
        [Event.enviarComando (max 0 (target - 2)), Event.sleep 0.1,
         Event.enviarComando target]) ∧
    (∀ last : ℝ, last ≤ target →
      (moverPara env (some last) target).2 = [Event.enviarComando target]) := by
  refine ⟨?_, ?_, ?_⟩
  · simp [moverPara, backlashEvents, h]
  · intro last hlt
    simp [moverPara, backlashEvents, h, hlt]
  · intro last hle
    simp [moverPara, backlashEvents, h, not_lt.2 hle]

/-- Witness for C3 (amended): with achieved position 500 and target 480 on
real hardware, the overshoot command targets max(0, 480 − 2) = 478, followed
by the 0.1 s pause and the command to 480. -/
theorem c3_backlash_real_witness :
    (moverPara envReal (some 500) 480).2 =
      [Event.enviarComando (max 0 (480 - 2)), Event.sleep 0.1,
       Event.enviarComando 480] ∧
    max (0 : ℝ) (480 - 2) = 478 :=
  ⟨(c3_backlash_real envReal rfl 480).2.1 500 (by norm_num), by norm_num⟩

/-- Claim C2 counterexample: in the simulated configuration with τ = 0.3 the
per-step settling sleep lasts 0.05 s, not 5 × τ = 1.5 s: the full event list
of a simulated step at 500 nm is the 0.05 s sleep, the saturation query and
the read, and 0.05 ≠ 0.3 * 5. -/
theorem c2_counterexample :
    stepEvents envSim 0.3 ⟨none, []⟩ 500 =
      [Event.sleep 0.05, Event.verificarStatus (500 : ℝ), Event.lerXY (500 : ℝ)] ∧
    (0.05 : ℝ) ≠ 0.3 * 5 := by
  have hwl : wlRealOf envSim ⟨none, []⟩ 500 = (500 : ℝ) := by
    rw [wlRealOf_eq]
    simp [wlRealPure, envSim]
  have hno : ¬((640 : ℝ) < 500 ∧ (500 : ℝ) < 660) := by norm_num
  constructor
  · rw [stepEvents_decomp, hwl]
    simp [moverPara, envSim, settleDur, overloadAt, decide_eq_false hno]
  · norm_num

/-- Claim C2 (amended): in every sweep step — in both configurations — the
settling sleep occurs immediately after the move completes and before the
first (and only) saturation query of the step; the move itself issues no
saturation query and no sample read, so neither occurs before the wait.  The
wait's duration is 5 × τ in the real-hardware configuration and the fixed
value 0.05 s in the simulated configuration. -/
theorem c2_settling (env : Env) (tau : ℝ) (st : SweepState) (wl : ℤ) :
    (∃ rest, stepEvents env tau st wl =
        (moverPara env st.currentLambda (wl : ℝ)).2 ++
          [Event.sleep (settleDur env tau),
           Event.verificarStatus (wlRealOf env st wl)] ++ rest) ∧
    (∀ e ∈ (moverPara env st.currentLambda (wl : ℝ)).2,
        isVerifStatus e = false ∧ isLer e = false) ∧
    (env.simulate = false → settleDur env tau = tau * 5) ∧
    (env.simulate = true → settleDur env tau = 0.05) := by
  refine ⟨?_, ?_, ?_, ?_⟩
  · refine ⟨(if overloadAt env (wlRealOf env st wl) = true then
        [Event.autoSensitivity, Event.sleep (settleDur env tau)] else []) ++
        [Event.lerXY (wlRealOf env st wl)], ?_⟩
    rw [stepEvents_decomp]
    simp
  · intro e he
    rcases moverPara_events_mem env st.currentLambda (wl : ℝ) e he with h | h <;>
      cases e <;> simp_all [isEnviarCmd, isSleepEv, isVerifStatus, isLer]
  · intro h; simp [settleDur, h]
  · intro h; simp [settleDur, h]

/-- Witness for C2 (amended): a concrete real-hardware step at 500 nm with
τ = 0.3 has its settling sleep right between the move commands and the
saturation query. -/
theorem c2_settling_witness :
    ∃ rest, stepEvents envReal 0.3 ⟨none, []⟩ 500 =
      (moverPara envReal none 500).2 ++
        [Event.sleep (settleDur envReal 0.3),
         Event.verificarStatus (wlRealOf envReal ⟨none, []⟩ 500)] ++ rest :=
  (c2_settling envReal 0.3 ⟨none, []⟩ 500).1

/-- Claim C4 (confirmed): in every sweep step the saturation query occurs
exactly once (never re-checked); if it reports overload, exactly one
auto_sensitivity call and exactly one additional settling sleep occur after
the query and before the single sample read; if it reports no overload, zero
auto_sensitivity calls and zero additional sleeps occur. -/
theorem c4_overload_policy (env : Env) (tau : ℝ) (st : SweepState) (wl : ℤ) :
    (stepEvents env tau st wl =
      ((moverPara env st.currentLambda (wl : ℝ)).2 ++
          [Event.sleep (settleDur env tau)]) ++
        [Event.verificarStatus (wlRealOf env st wl)] ++
        (if overloadAt env (wlRealOf env st wl) = true then
          [Event.autoSensitivity, Event.sleep (settleDur env tau)]
        else []) ++
        [Event.lerXY (wlRealOf env st wl)]) ∧
    (stepEvents env tau st wl).countP isVerifStatus = 1 ∧
    (stepEvents env tau st wl).countP isLer = 1 ∧
    (stepEvents env tau st wl).countP isAutoSens =
      (if overloadAt env (wlRealOf env st wl) = true then 1 else 0) :=
  ⟨stepEvents_decomp env tau st wl, stepEvents_countP_verif env tau st wl,
   stepEvents_countP_ler env tau st wl, stepEvents_countP_autoSens env tau st wl⟩

lemma stepFails_sim (env : Env) (h : env.simulate = true) (wl : ℤ) :
    stepFails env wl = false := by
  simp [stepFails, lerXY, h]

lemma exec_dados_append (env : Env) (st0 : SweepState) (s e p : ℤ) (tau : ℝ) :
    ∃ n, (executarVarredura env st0 s e p tau).1.dados = st0.dados ++ n := by
  unfold executarVarredura
  by_cases h1 : (!env.simulate && !env.initOk) = true
  · rw [if_pos h1]
    exact ⟨[], by simp⟩
  · rw [if_neg h1]
    by_cases h2 : (!env.simulate && !env.conectarOk) = true
    · rw [if_pos h2]
      exact ⟨[], by simp⟩
    · rw [if_neg h2]
      exact runLoop_dados_append env tau (pyRange s (e + 1) p) st0

lemma exec_dados_ok (env : Env) (st0 : SweepState) (s e p : ℤ) (tau : ℝ)
    (hok : ∀ w ∈ pyRange s (e + 1) p, stepFails env w = false)
    (henv : env.simulate = true ∨ (env.initOk = true ∧ env.conectarOk = true)) :
    (executarVarredura env st0 s e p tau).1.dados =
      st0.dados ++ (pyRange s (e + 1) p).map (recordAt env) := by
  rw [exec_unfold env st0 s e p tau henv]
  simpa using (runLoop_ok env tau (pyRange s (e + 1) p) st0 hok).2

/-- Claim C1 counterexample: on real hardware, when the detector connect fails
after the actuator was successfully initialised, `executar_varredura` raises
before the `try` block is entered: `mono.inicializar` ran (the actuator
session is open) yet neither `mono.fechar` nor `lockin.fechar` is ever
invoked, so the actuator session leaks. -/
theorem c1_counterexample :
    (executarVarredura envConnFail ⟨none, []⟩ 400 800 5 0.3).2.1 =
      some SweepError.detectorConnect ∧
    ((executarVarredura envConnFail ⟨none, []⟩ 400 800 5 0.3).2.2).countP isMonoInit = 1 ∧
    ((executarVarredura envConnFail ⟨none, []⟩ 400 800 5 0.3).2.2).countP isMonoFechar = 0 ∧
    ((executarVarredura envConnFail ⟨none, []⟩ 400 800 5 0.3).2.2).countP
      isLockinFechar = 0 := by
  refine ⟨?_, ?_, ?_, ?_⟩ <;>
    simp [executarVarredura, envConnFail, envReal, List.countP_cons,
      isMonoInit, isMonoFechar, isLockinFechar]

/-- Claim C1 (amended): whenever the sweep reaches the `try` block — always in
the simulated configuration, and on real hardware whenever initialisation and
connect both succeed — the actuator shutdown and the detector shutdown are
each invoked exactly once on every exit path of `executar_varredura`, both on
normal completion and when an `AcquisitionError` is raised mid-loop.  (A
detector connect failure occurring after the actuator was initialised skips
both shutdowns; see the counterexample.) -/
theorem c1_cleanup_exactly_once (env : Env) (st0 : SweepState) (s e p : ℤ) (tau : ℝ)
    (henv : env.simulate = true ∨ (env.initOk = true ∧ env.conectarOk = true)) :
    ((executarVarredura env st0 s e p tau).2.2).countP isMonoFechar = 1 ∧
    ((executarVarredura env st0 s e p tau).2.2).countP isLockinFechar = 1 := by
  rw [exec_unfold env st0 s e p tau henv]
  have h := runLoop_countP_fechar env tau (pyRange s (e + 1) p) st0
  constructor
  · simp [List.countP_append, List.countP_cons, isMonoFechar, isLockinFechar, h.1]
  · simp [List.countP_append, List.countP_cons, isMonoFechar, isLockinFechar, h.2]

/-- Witness for C1 (amended): a concrete simulated sweep invokes each shutdown
exactly once. -/
theorem c1_cleanup_exactly_once_witness :
    ((executarVarredura envSim ⟨none, []⟩ 400 800 5 0.3).2.2).countP isMonoFechar = 1 ∧
    ((executarVarredura envSim ⟨none, []⟩ 400 800 5 0.3).2.2).countP isLockinFechar = 1 :=
  c1_cleanup_exactly_once envSim ⟨none, []⟩ 400 800 5 0.3 (Or.inl rfl)

/-- Claim C5 (confirmed): a sweep that completes normally, started on a fresh
dataset, raises nothing and produces exactly one record per requested
wavelength of range(start, end + 1, step), in sweep order; each record's
wavelength field is the achieved wavelength of its requested wavelength,
which in the simulated configuration is the requested wavelength itself. -/
theorem c5_record_per_wavelength (env : Env) (cur0 : Option ℝ) (s e p : ℤ) (tau : ℝ)
    (hok : ∀ w ∈ pyRange s (e + 1) p, stepFails env w = false)
    (henv : env.simulate = true ∨ (env.initOk = true ∧ env.conectarOk = true)) :
    (executarVarredura env ⟨cur0, []⟩ s e p tau).2.1 = none ∧
    (executarVarredura env ⟨cur0, []⟩ s e p tau).1.dados =
      (pyRange s (e + 1) p).map (recordAt env) ∧
    (executarVarredura env ⟨cur0, []⟩ s e p tau).1.dados.length =
      (pyRange s (e + 1) p).length ∧
    ((executarVarredura env ⟨cur0, []⟩ s e p tau).1.dados).map SampleRecord.wl =
      (pyRange s (e + 1) p).map (wlRealPure env) ∧
    (env.simulate = true →
      ((executarVarredura env ⟨cur0, []⟩ s e p tau).1.dados).map SampleRecord.wl =
        (pyRange s (e + 1) p).map (fun w : ℤ => (w : ℝ))) := by
  have hd : (executarVarredura env ⟨cur0, []⟩ s e p tau).1.dados =
      (pyRange s (e + 1) p).map (recordAt env) := by
    simpa using exec_dados_ok env ⟨cur0, []⟩ s e p tau hok henv
  have hflag : (executarVarredura env ⟨cur0, []⟩ s e p tau).2.1 = none := by
    rw [exec_unfold env ⟨cur0, []⟩ s e p tau henv]
    simp [(runLoop_ok env tau (pyRange s (e + 1) p) ⟨cur0, []⟩ hok).1]
  have hwl : ((executarVarredura env ⟨cur0, []⟩ s e p tau).1.dados).map SampleRecord.wl =
      (pyRange s (e + 1) p).map (wlRealPure env) := by
    rw [hd, List.map_map]
    congr 1
    funext w
    simp [Function.comp, recordAt_wl]
  refine ⟨hflag, hd, by simp [hd], hwl, ?_⟩
  intro hsim
  have hid : wlRealPure env = fun w : ℤ => (w : ℝ) := by
    funext w
    simp [wlRealPure, hsim]
  rw [hwl, hid]

/-- Witness for C5: the simulated end-to-end sweep 400–800 nm, step 5, τ = 0.3
produces exactly 81 records, in sweep order, whose wavelength fields are the
requested wavelengths 400 + 5·i. -/
theorem c5_record_per_wavelength_witness :
    (executarVarredura envSim ⟨none, []⟩ 400 800 5 0.3).1.dados.length =
      (pyRange 400 (800 + 1) 5).length ∧
    ((executarVarredura envSim ⟨none, []⟩ 400 800 5 0.3).1.dados).map SampleRecord.wl =
      (pyRange 400 (800 + 1) 5).map (fun w : ℤ => (w : ℝ)) ∧
    (pyRange 400 (800 + 1) 5).length = 81 ∧
    pyRange 400 (800 + 1) 5 = (List.range 81).map (fun i => 400 + 5 * (i : ℤ)) := by
  have h := c5_record_per_wavelength envSim none 400 800 5 0.3
    (fun w _ => stepFails_sim envSim rfl w) (Or.inl rfl)
  exact ⟨h.2.2.1, h.2.2.2.2 rfl, by decide, by decide⟩

/-- Claim C6 (confirmed): the derived magnitude is the Euclidean norm
sqrt(x² + y²), hence non-negative; the derived phase is the four-quadrant
arctangent atan2(y, x) converted to degrees and lies in (−180°, 180°]; every
record a sweep appends carries exactly these derived values; and for the
sample x = 3, y = 4 the magnitude is 5 and the phase is atan2(4, 3) in
degrees. -/
theorem c6_magnitude_phase :
    (∀ x y : ℝ, magnitude x y = Real.sqrt (x ^ 2 + y ^ 2) ∧ 0 ≤ magnitude x y ∧
      faseDeg x y = atan2 y x * (180 / Real.pi) ∧
      -180 < faseDeg x y ∧ faseDeg x y ≤ 180) ∧
    (∀ (env : Env) (st0 : SweepState) (s e p : ℤ) (tau : ℝ) (rec : SampleRecord),
      rec ∈ (executarVarredura env st0 s e p tau).1.dados →
      rec ∈ st0.dados ∨
        (rec.r = magnitude rec.x rec.y ∧ rec.fase = faseDeg rec.x rec.y)) ∧
    magnitude 3 4 = 5 ∧ faseDeg 3 4 = atan2 4 3 * (180 / Real.pi) := by
  have hrange : ∀ x y : ℝ, -180 < faseDeg x y ∧ faseDeg x y ≤ 180 := by
    intro x y
    have hk : (0 : ℝ) < 180 / Real.pi := by positivity
    have h1 : atan2 y x ≤ Real.pi := Complex.arg_le_pi _
    have h2 : -Real.pi < atan2 y x := Complex.neg_pi_lt_arg _
    constructor
    · have hm := mul_lt_mul_of_pos_right h2 hk
      calc (-180 : ℝ) = -Real.pi * (180 / Real.pi) := by
            field_simp
            ring
        _ < faseDeg x y := by rw [faseDeg]; exact hm
    · have hm := mul_le_mul_of_nonneg_right h1 (le_of_lt hk)
      calc faseDeg x y ≤ Real.pi * (180 / Real.pi) := by rw [faseDeg]; exact hm
        _ = 180 := by field_simp
  refine ⟨?_, ?_, ?_, rfl⟩
  · intro x y
    exact ⟨rfl, Real.sqrt_nonneg _, rfl, (hrange x y).1, (hrange x y).2⟩
  · intro env st0 s e p tau rec h
    unfold executarVarredura at h
    by_cases h1 : (!env.simulate && !env.initOk) = true
    · rw [if_pos h1] at h
      exact Or.inl h
    · rw [if_neg h1] at h
      by_cases h2 : (!env.simulate && !env.conectarOk) = true
      · rw [if_pos h2] at h
        exact Or.inl h
      · rw [if_neg h2] at h
        exact runLoop_mem_derived env tau (pyRange s (e + 1) p) st0 rec h
  · unfold magnitude
    rw [show (3 : ℝ) ^ 2 + 4 ^ 2 = 25 by norm_num,
      show (25 : ℝ) = 5 ^ 2 by norm_num, Real.sqrt_sq (by norm_num : (0 : ℝ) ≤ 5)]

/-- Claim C7 counterexample: in the real-hardware configuration, calling
either shutdown method when the corresponding session was never established
(`self.lib` / `self.inst` still `None`) raises an `AttributeError` instead of
performing best-effort cleanup, refuting "calling them in any such state does
not raise". -/
theorem c7_counterexample :
    benthamFechar false none = Except.error PyError.attributeError ∧
    sr7265Fechar false none = Except.error PyError.attributeError :=
  ⟨rfl, rfl⟩

/-- Claim C7 (amended): in the simulated configuration both shutdown
operations are no-ops — idempotent and safe in every session state; in the
real-hardware configuration they succeed (and, mutating nothing, may be
repeated) once the session is established, but calling them before a
successful initialize/connect dereferences the unset session and raises an
`AttributeError`, so in that state they are not safe. -/
theorem c7_fechar_amended (lib inst : Option Unit) :
    benthamFechar true lib = Except.ok () ∧
    sr7265Fechar true inst = Except.ok () ∧
    benthamFechar false (some ()) = Except.ok () ∧
    sr7265Fechar false (some ()) = Except.ok () ∧
    (lib = none → benthamFechar false lib = Except.error PyError.attributeError) ∧
    (inst = none → sr7265Fechar false inst = Except.error PyError.attributeError) := by
  refine ⟨rfl, rfl, rfl, rfl, ?_, ?_⟩ <;> (intro h; subst h; rfl)

/-- Witness for C7 (amended) at concrete session states. -/
theorem c7_fechar_amended_witness :
    benthamFechar true none = Except.ok () ∧ sr7265Fechar true none = Except.ok () :=
  ⟨(c7_fechar_amended none none).1, (c7_fechar_amended none none).2.1⟩

/-- Claim C8 (confirmed): if a read raises mid-sweep, the sweep stops
immediately — exactly the reads of the completed steps plus the failing read
are ever issued, none for the remaining wavelengths — every record appended
before the failure is preserved unchanged in the dataset, and the result sink
receives exactly those records. -/
theorem c8_partial_results (env : Env) (st0 : SweepState) (s e p : ℤ) (tau : ℝ)
    (l1 : List ℤ) (w : ℤ) (l2 : List ℤ)
    (hsplit : pyRange s (e + 1) p = l1 ++ w :: l2)
    (h1 : ∀ v ∈ l1, stepFails env v = false)
    (hw : stepFails env w = true)
    (hio : env.initOk = true) (hc : env.conectarOk = true) :
    (executarVarredura env st0 s e p tau).2.1 = some SweepError.acquisition ∧
    (executarVarredura env st0 s e p tau).1.dados =
      st0.dados ++ l1.map (recordAt env) ∧
    sinkRows (executarVarredura env st0 s e p tau).1.dados =
      (st0.dados ++ l1.map (recordAt env)).map toRow ∧
    ((executarVarredura env st0 s e p tau).2.2).countP isLer = l1.length + 1 := by
  rw [exec_unfold env st0 s e p tau (Or.inr ⟨hio, hc⟩), hsplit]
  have h := runLoop_stops env tau l1 st0 w l2 h1 hw
  refine ⟨by simp [h.1], by simpa using h.2.1, ?_, ?_⟩
  · simp only [sinkRows]
    rw [h.2.1]
  · simp [List.countP_append, List.countP_cons, isLer, h.2.2]

/-- Witness for C8: on real hardware with reads failing from 410 nm on, the
sweep 400–420 nm (step 5) raises `AcquisitionError` after issuing exactly the
reads at 400, 405 and 410 nm. -/
theorem c8_partial_results_witness :
    (executarVarredura envReadFail ⟨none, []⟩ 400 420 5 0.3).2.1 =
      some SweepError.acquisition ∧
    ((executarVarredura envReadFail ⟨none, []⟩ 400 420 5 0.3).2.2).countP isLer = 3 := by
  have hf : ∀ v : ℤ, v ∈ ([400, 405] : List ℤ) → stepFails envReadFail v = false := by
    intro v hv
    simp only [List.mem_cons, List.not_mem_nil, or_false] at hv
    have hlt : (v : ℝ) < 410 := by
      rcases hv with rfl | rfl <;> norm_num
    simp [stepFails, wlRealPure, lerXY, envReadFail, envReal, hlt]
  have hw : stepFails envReadFail (410 : ℤ) = true := by
    have : ¬(((410 : ℤ) : ℝ) < 410) := by norm_num
    simp [stepFails, wlRealPure, lerXY, envReadFail, envReal, this]
  have h := c8_partial_results envReadFail ⟨none, []⟩ 400 420 5 0.3 [400, 405] 410 [415, 420]
    (by decide) hf hw rfl rfl
  exact ⟨h.1, by simpa using h.2.2.2⟩

/-- Claim C9 (confirmed): the dataset is only ever appended to — no operation
clears or resets it — so a second sweep on the same instance extends the
first sweep's records, and after two normally-completed sweeps the dataset is
the concatenation of both sweeps' records (not one record per wavelength of
the latest sweep). -/
theorem c9_append_only (env : Env) (st0 : SweepState) (s1 e1 p1 : ℤ) (tau1 : ℝ)
    (s2 e2 p2 : ℤ) (tau2 : ℝ) :
    (∃ n1, (executarVarredura env st0 s1 e1 p1 tau1).1.dados = st0.dados ++ n1) ∧
    (∃ n2, (executarVarredura env (executarVarredura env st0 s1 e1 p1 tau1).1
        s2 e2 p2 tau2).1.dados =
      (executarVarredura env st0 s1 e1 p1 tau1).1.dados ++ n2) ∧
    ((∀ w ∈ pyRange s1 (e1 + 1) p1, stepFails env w = false) →
     (∀ w ∈ pyRange s2 (e2 + 1) p2, stepFails env w = false) →
     (env.simulate = true ∨ (env.initOk = true ∧ env.conectarOk = true)) →
      (executarVarredura env (executarVarredura env st0 s1 e1 p1 tau1).1
          s2 e2 p2 tau2).1.dados =
        st0.dados ++ (pyRange s1 (e1 + 1) p1).map (recordAt env) ++
          (pyRange s2 (e2 + 1) p2).map (recordAt env)) := by
  refine ⟨exec_dados_append env st0 s1 e1 p1 tau1,
    exec_dados_append env _ s2 e2 p2 tau2, ?_⟩
  intro h1 h2 henv
  rw [exec_dados_ok env _ s2 e2 p2 tau2 h2 henv,
    exec_dados_ok env st0 s1 e1 p1 tau1 h1 henv]

/-- Witness for C9: two consecutive simulated sweeps on the same instance
leave the concatenation of both sweeps' records in the dataset. -/
theorem c9_append_only_witness :
    (executarVarredura envSim (executarVarredura envSim ⟨none, []⟩ 400 410 5 0.3).1
        500 510 5 0.3).1.dados =
      ([] : List SampleRecord) ++ (pyRange 400 (410 + 1) 5).map (recordAt envSim) ++
        (pyRange 500 (510 + 1) 5).map (recordAt envSim) :=
  (c9_append_only envSim ⟨none, []⟩ 400 410 5 0.3 500 510 5 0.3).2.2
    (fun w _ => stepFails_sim envSim rfl w) (fun w _ => stepFails_sim envSim rfl w)
    (Or.inl rfl)

/-- Witness for C6: the 3-4-5 sample, and the derivation clause applied at a
concrete sweep whose dataset holds one pre-existing record. -/
theorem c6_magnitude_phase_witness :
    magnitude 3 4 = 5 ∧
    ((⟨400, 3, 4, 5, 53⟩ : SampleRecord) ∈ (⟨none, [⟨400, 3, 4, 5, 53⟩]⟩ : SweepState).dados ∨
      ((⟨400, 3, 4, 5, 53⟩ : SampleRecord).r =
          magnitude (⟨400, 3, 4, 5, 53⟩ : SampleRecord).x
            (⟨400, 3, 4, 5, 53⟩ : SampleRecord).y ∧
        (⟨400, 3, 4, 5, 53⟩ : SampleRecord).fase =
          faseDeg (⟨400, 3, 4, 5, 53⟩ : SampleRecord).x
            (⟨400, 3, 4, 5, 53⟩ : SampleRecord).y)) :=
  ⟨c6_magnitude_phase.2.2.1,
    c6_magnitude_phase.2.1 envConnFail ⟨none, [⟨400, 3, 4, 5, 53⟩]⟩ 400 800 5 0.3
      ⟨400, 3, 4, 5, 53⟩ (by simp [executarVarredura, envConnFail, envReal])⟩
